import Mathlib

/-!
Verification development for the SEO content-generation pipeline.

The definitions below are a shallow embedding of the TypeScript sources:

* `src/agents/content-generator.ts` — the pipeline orchestrator
  (`generate`, `generateStream`, `analyzeSERP`, `performKeywordResearch`,
  `parseKeywordResearchResponse`, `parseOutlineResponse`,
  `extractReferences`, `countWords`, `formatKeywordSuggestions`);
* `src/routes/articles.ts` — the SSE route wrapper around `generateStream`;
* `src/services/dataforseo/client.ts` — `getSERPResults`;
* `src/services/ai/openai.ts` and `src/services/ai/gemini.ts` — the
  generation-provider client constructors.

External effects (HTTP calls to the research provider and to the
generation providers, wall-clock time) are modelled by an explicit
environment `Env` of oracles: each network call site reads the outcome the
environment assigns to it (`Except GenError …` for calls that can throw).
JavaScript exceptions are modelled with `Except`/`Option`; JavaScript
string/array operations are translated to `List Char`/`List` operations
with the same semantics (documented inline at each point where the
JavaScript semantics is subtle, e.g. truthiness of `||`, stability of
`Array.prototype.sort`, the exact character class of `\s`).
-/

/-! ## Data model (src/types/index.ts) -/

structure InternalLink where
  url : String
  title : String
  relevance : Option String := none
deriving Repr, DecidableEq

structure ArticleGenerationInput where
  topic : String
  targetAudience : Option String := none
  contentType : Option String := none
  targetWordCount : Option Nat := none
  includeKeywordResearch : Bool := true
  includeFAQ : Bool := true
  internalLinks : Option (List InternalLink) := none
deriving Repr

structure PrimaryKeyword where
  keyword : String
  searchVolume : Nat
  competition : String
  competitionLevel : String
  cpc : ℚ
  intent : String
  aiCitationFormat : String
deriving Repr

structure SecondaryKeyword where
  keyword : String
  volume : Nat
  intent : String
  competition : String
  useIn : String
deriving Repr

structure ClusterKeyword where
  keyword : String
  volume : Nat
  intent : String
deriving Repr

structure LongTailCluster where
  theme : String
  keywords : List ClusterKeyword
deriving Repr

structure QuestionKeyword where
  question : String
  priority : String
  volume : Nat
  placement : String
deriving Repr

inductive ContentSection where
  | mk (type : String) (title : String) (wordCount : Nat) (intent : String)
       (keywords : List String) (subsections : Option (List ContentSection))
deriving Repr

structure ContentStructure where
  h1 : String
  metaTitle : String
  metaDescription : String
  targetWordCount : Nat
  sections : List ContentSection
deriving Repr

structure IntentDistribution where
  informational : Nat
  commercial : Nat
  transactional : Nat
deriving Repr

structure CompetitiveAnalysis where
  totalKeywordsDiscovered : Nat
  averageVolume : Nat
  intentDistribution : IntentDistribution
  contentGaps : List String
deriving Repr

structure KeywordResearchResult where
  primaryKeyword : PrimaryKeyword
  secondaryKeywords : List SecondaryKeyword
  longTailClusters : List LongTailCluster
  questions : List QuestionKeyword
  contentStructure : ContentStructure
  competitiveAnalysis : CompetitiveAnalysis
deriving Repr

structure OutlineMetadata where
  primaryKeyword : String
  h1 : String
  metaTitle : String
  metaDescription : String
  targetWordCount : Nat
deriving Repr

structure KeyTakeaway where
  mainAnswer : String
  bullets : List String
deriving Repr

structure OutlineParagraph where
  wordCount : Nat
  whatToWrite : List String
  keywords : List String
deriving Repr

inductive OutlineSection where
  | mk (type : String) (title : String) (wordCount : Nat) (intent : String)
       (paragraphs : List OutlineParagraph) (subsections : Option (List OutlineSection))
deriving Repr

structure AnswerStructure where
  directAnswer : String
  context : String
deriving Repr

structure FAQItem where
  question : String
  priority : String
  answerStructure : AnswerStructure
  wordCount : Nat
deriving Repr

structure Citation where
  sourceName : String
  url : String
  type : String
  useIn : String
deriving Repr

structure ParagraphBlock where
  paragraphs : List OutlineParagraph
deriving Repr

structure OutlineResult where
  metadata : OutlineMetadata
  keyTakeaway : KeyTakeaway
  introduction : ParagraphBlock
  sections : List OutlineSection
  faq : List FAQItem
  conclusion : ParagraphBlock
  citations : List Citation
deriving Repr

structure Reference where
  number : Nat
  source : String
  url : String
deriving Repr, DecidableEq

structure ArticleResult where
  title : String
  content : String
  wordCount : Nat
  readingTime : String
deriving Repr

structure SeoInfo where
  metaTitle : String
  metaDescription : String
  primaryKeyword : String
  secondaryKeywords : List String
deriving Repr

structure PlacedInternalLink where
  anchorText : String
  url : String
  placement : String
deriving Repr, DecidableEq

structure GenerationData where
  article : ArticleResult
  seo : SeoInfo
  outline : OutlineResult
  keywordResearch : KeywordResearchResult
  references : List Reference
  internalLinks : List PlacedInternalLink
deriving Repr

structure TokensUsed where
  keywordResearch : Nat
  outline : Nat
  article : Nat
deriving Repr

structure RunMetadata where
  generatedAt : String
  processingTime : Nat
  tokensUsed : TokensUsed
deriving Repr

structure ArticleGenerationOutput where
  success : Bool
  data : GenerationData
  metadata : RunMetadata
deriving Repr

/-- Stream events (`StreamEvent` in src/types/index.ts): the source models
them as a `type` tag plus a `data` payload; the tagged union is embedded as
an inductive. The `complete` payload in `generateStream` carries the full
output envelope (success flag, data, metadata). -/
inductive StreamEvent where
  | progress (phase : String) (progress : Nat) (message : String)
  | chunk (content : String)
  | complete (out : ArticleGenerationOutput)
  | error (message : String) (code : String)
deriving Repr

/-- Uniform model of a thrown JavaScript `Error` (or `DataForSEOError`,
which additionally carries a machine-readable code). -/
structure GenError where
  message : String
  code : String := ""
deriving Repr, DecidableEq

/-- `AICompletionResponse` from src/types/index.ts. -/
structure AIResponse where
  content : String
  tokensUsed : Nat
deriving Repr, DecidableEq

/-! ## Research-provider data (src/services/dataforseo/types.ts) -/

namespace DataForSEO

/-- Provider-side SERP entry (`SERPItem` in dataforseo/types.ts); carries
the provider's own absolute rank numbering (`rank_absolute`), which the
client deliberately ignores when re-ranking. `description` is optional in
the provider payload (the client substitutes `''`). -/
structure SERPItem where
  type : String
  rank_group : Nat
  rank_absolute : Nat
  domain : String
  title : String
  url : String
  description : Option String
deriving Repr, DecidableEq

/-- Provider-side task result (`SERPTaskResult`): the fields the client
reads. `items` is optional (`result.items?.…`). -/
structure SERPTaskResult where
  keyword : String
  se_results_count : Nat
  items : Option (List SERPItem)
deriving Repr, DecidableEq

/-- `KeywordSuggestion` from dataforseo/types.ts. -/
structure KeywordSuggestion where
  keyword : String
  search_volume : Nat
  competition_level : String
  cpc : ℚ
  keyword_difficulty : Nat
deriving Repr

end DataForSEO

/-- Agent-facing SERP entry (`SERPItem` in src/types/index.ts). -/
structure SERPRankedItem where
  rank : Nat
  url : String
  title : String
  description : String
  domain : String
deriving Repr, DecidableEq

/-- `SERPResult` from src/types/index.ts: the normalized snapshot. -/
structure SERPResult where
  keyword : String
  totalResults : Nat
  items : List SERPRankedItem
deriving Repr, DecidableEq

/-- `DataForSEOClient.getSERPResults`, the pure processing of the provider
response (the `tasks?.[0]?.result?.[0]` optional chain is the `Option`
argument). Filters to `type === 'organic'`, truncates with
`slice(0, 10)`, then re-ranks by `map((item, index) => rank: index + 1)`;
returns an empty snapshot when no result object is present. -/
def getSERPResults (keyword : String) (resp : Option DataForSEO.SERPTaskResult) :
    SERPResult :=
  match resp with
  | none => { keyword := keyword, totalResults := 0, items := [] }
  | some result =>
    let organicItems :=
      (((result.items.getD []).filter (fun item => item.type = "organic")).take 10).enum.map
        (fun p =>
          { rank := p.1 + 1
            url := p.2.url
            title := p.2.title
            description := p.2.description.getD ""
            domain := p.2.domain : SERPRankedItem })
    { keyword := result.keyword
      totalResults := result.se_results_count
      items := organicItems }

/-! ## Generation-provider clients (src/services/ai/openai.ts, gemini.ts) -/

/-- JavaScript `a || b` on an optionally-present string: `undefined` and
`''` are falsy. -/
def jsOrStr (v : Option String) (d : String) : String :=
  match v with
  | some s => if s = "" then d else s
  | none => d

/-- JavaScript `a || b` on an optionally-present number: `undefined` and
`0` are falsy. -/
def jsOrNat (v : Option Nat) (d : Nat) : Nat :=
  match v with
  | some n => if n = 0 then d else n
  | none => d

/-- JavaScript `a || b` on an optionally-present numeric (temperature). -/
def jsOrRat (v : Option ℚ) (d : ℚ) : ℚ :=
  match v with
  | some q => if q = 0 then d else q
  | none => d

structure AIPartialConfig where
  apiKey : Option String := none
  model : Option String := none
  maxTokens : Option Nat := none
  temperature : Option ℚ := none

structure OpenAIClient where
  apiKey : String
  model : String
  maxTokens : Nat
  temperature : ℚ

/-- `OpenAIClient`'s constructor: resolves the config from the explicit
partial config, then the `OPENAI_API_KEY` environment variable, then `''`,
and throws `'OpenAI API key not configured'` when the resolved key is
falsy. `Except` models the constructor throwing. -/
def OpenAIClient.create (config : Option AIPartialConfig) (envApiKey : Option String) :
    Except String OpenAIClient :=
  let cfg : OpenAIClient :=
    { apiKey := jsOrStr (config.bind (fun c => c.apiKey)) (jsOrStr envApiKey "")
      model := jsOrStr (config.bind (fun c => c.model)) "gpt-4-turbo-preview"
      maxTokens := jsOrNat (config.bind (fun c => c.maxTokens)) 4096
      temperature := jsOrRat (config.bind (fun c => c.temperature)) (7 / 10) }
  if cfg.apiKey = "" then
    Except.error "OpenAI API key not configured"
  else
    Except.ok cfg

structure GeminiClient where
  apiKey : String
  model : String
  maxTokens : Nat
  temperature : ℚ

/-- `GeminiClient`'s constructor: resolves the key from the explicit
partial config, then `GOOGLE_AI_API_KEY`, then `''`, and throws
`'Google AI API key not configured'` when the resolved key is falsy. -/
def GeminiClient.create (config : Option AIPartialConfig) (envApiKey : Option String) :
    Except String GeminiClient :=
  let cfg : GeminiClient :=
    { apiKey := jsOrStr (config.bind (fun c => c.apiKey)) (jsOrStr envApiKey "")
      model := jsOrStr (config.bind (fun c => c.model)) "gemini-1.5-pro"
      maxTokens := jsOrNat (config.bind (fun c => c.maxTokens)) 8192
      temperature := jsOrRat (config.bind (fun c => c.temperature)) (7 / 10) }
  if cfg.apiKey = "" then
    Except.error "Google AI API key not configured"
  else
    Except.ok cfg

/-! ## Response parsers (private methods of ContentGeneratorAgent) -/

/-- The characters stripped by `countWords`'s
`replace(/[#*_`[]()]/g, '')` (hash, asterisk, underscore, backtick,
square brackets, parentheses). -/
def isMdChar (c : Char) : Bool :=
  c = '#' || c = '*' || c = '_' || c = Char.ofNat 96 ||
  c = '[' || c = ']' || c = '(' || c = ')'

/-- JavaScript's `\s` character class (the whitespace set used by
`split(/\s+/)`). -/
def isJsWs (c : Char) : Bool :=
  c = ' ' || c = '\t' || c = '\n' || c = '\r' ||
  c = Char.ofNat 0x0b || c = Char.ofNat 0x0c || c = Char.ofNat 0xa0 ||
  c = Char.ofNat 0x1680 || (0x2000 ≤ c.toNat && c.toNat ≤ 0x200a) ||
  c = Char.ofNat 0x2028 || c = Char.ofNat 0x2029 || c = Char.ofNat 0x202f ||
  c = Char.ofNat 0x205f || c = Char.ofNat 0x3000 || c = Char.ofNat 0xfeff

/-- Counts maximal runs of non-whitespace characters; `inWord` records
whether the previous character belonged to a run. This is exactly the
length of `split(/\s+/).filter(w => w.length > 0)`. -/
def tokenCountAux : Bool → List Char → Nat
  | _, [] => 0
  | inWord, c :: rest =>
    if isJsWs c then tokenCountAux false rest
    else (if inWord then 0 else 1) + tokenCountAux true rest

/-- `countWords` from content-generator.ts: strip the markdown formatting
characters, split on whitespace runs, count the non-empty tokens. -/
def countWords (text : String) : Nat :=
  tokenCountAux false (text.data.filter (fun c => !(isMdChar c)))

/-- Reading time as the orchestrator renders it:
`Math.ceil(wordCount / 200)` followed by `' min'`. On naturals,
`⌈w / 200⌉ = (w + 199) / 200`. -/
def readingTimeOf (wordCount : Nat) : String :=
  toString ((wordCount + 199) / 200) ++ " min"

/-- The prefix of `cs` that ends at the last `'\x7d'` in `cs` (the greedy
`[\s\S]*\x7d` tail of the JSON-extraction regex), if `cs` contains one. -/
def takeToLastClose (cs : List Char) : Option (List Char) :=
  let t := cs.reverse.dropWhile (fun c => c ≠ '\x7d')
  if t.isEmpty then none else some t.reverse

/-- The span matched by `content.match(/\x7b[\s\S]*\x7d/)`: the regex
engine tries each start position left to right, matching at the first
`'\x7b'` that has a `'\x7d'` strictly after it, and the greedy `[\s\S]*`
extends to the last `'\x7d'` of the input. `none` when no such span
exists. -/
def jsonSpan : List Char → Option (List Char)
  | [] => none
  | c :: rest =>
    if c = '\x7b' then
      match takeToLastClose rest with
      | some pre => some ('\x7b' :: pre)
      | none => jsonSpan rest
    else jsonSpan rest

/-- The deterministic fallback `KeywordResearchResult` built by
`parseKeywordResearchResponse` when no JSON object can be extracted or
parsed from the generation response. -/
def keywordResearchFallback (topic : String) : KeywordResearchResult :=
  { primaryKeyword :=
      { keyword := topic
        searchVolume := 1000
        competition := "medium"
        competitionLevel := "medium"
        cpc := 3 / 2
        intent := "informational"
        aiCitationFormat := "comprehensive guide" }
    secondaryKeywords := []
    longTailClusters := []
    questions := []
    contentStructure :=
      { h1 := topic
        metaTitle := topic
        metaDescription := "Learn about " ++ topic
        targetWordCount := 2500
        sections := [] }
    competitiveAnalysis :=
      { totalKeywordsDiscovered := 0
        averageVolume := 0
        intentDistribution := { informational := 100, commercial := 0, transactional := 0 }
        contentGaps := [] } }

/-- `parseKeywordResearchResponse`: extract the greedy `[...]` JSON span
and parse it (`parseJson` models `JSON.parse` plus the unchecked cast to
`KeywordResearchResult`; `none` models a thrown parse error); on any
failure return the deterministic fallback. Total — never throws. -/
def parseKeywordResearchResponse (parseJson : String → Option KeywordResearchResult)
    (content : String) (topic : String) : KeywordResearchResult :=
  match jsonSpan content.data with
  | some span =>
    match parseJson (String.mk span) with
    | some r => r
    | none => keywordResearchFallback topic
  | none => keywordResearchFallback topic

/-- The deterministic fallback `OutlineResult` built by
`parseOutlineResponse`: empty bodies, metadata copied from the keyword
research result. -/
def outlineFallback (keywordResearch : KeywordResearchResult) : OutlineResult :=
  { metadata :=
      { primaryKeyword := keywordResearch.primaryKeyword.keyword
        h1 := keywordResearch.contentStructure.h1
        metaTitle := keywordResearch.contentStructure.metaTitle
        metaDescription := keywordResearch.contentStructure.metaDescription
        targetWordCount := keywordResearch.contentStructure.targetWordCount }
    keyTakeaway := { mainAnswer := "", bullets := [] }
    introduction := { paragraphs := [] }
    sections := []
    faq := []
    conclusion := { paragraphs := [] }
    citations := [] }

/-- `parseOutlineResponse`: same JSON-span extraction strategy as
`parseKeywordResearchResponse`, with the outline fallback. -/
def parseOutlineResponse (parseJson : String → Option OutlineResult)
    (content : String) (keywordResearch : KeywordResearchResult) : OutlineResult :=
  match jsonSpan content.data with
  | some span =>
    match parseJson (String.mk span) with
    | some r => r
    | none => outlineFallback keywordResearch
  | none => outlineFallback keywordResearch

/-- The pattern `## references` matched case-insensitively. JavaScript's
`i` flag on an all-ASCII pattern folds only ASCII letters, which is what
`Char.toLower` does. -/
def refHeadingPat : List Char := "## references".data

/-- `content.match(/## References[\s\S]*$/i)`: the suffix of the input
starting at the first (case-insensitive) occurrence of `## References`,
or `none`. The heading is searched anywhere in the text, not only at the
start of a line. -/
def findRefSection : List Char → Option (List Char)
  | [] => none
  | c :: rest =>
    if refHeadingPat.isPrefixOf ((c :: rest).map Char.toLower) then some (c :: rest)
    else findRefSection rest

/-- `split('\n')` on a character list; `[""]` for the empty string, and
consecutive separators produce empty lines, as in JavaScript. -/
def splitLines : List Char → List (List Char)
  | [] => [[]]
  | c :: rest =>
    if c = '\n' then [] :: splitLines rest
    else
      match splitLines rest with
      | h :: t => (c :: h) :: t
      | [] => [[c]]

/-- `line.match(/^\d+\./)` as a Boolean: the line starts with one or more
ASCII digits followed by a dot. -/
def numericMarker (cs : List Char) : Bool :=
  let ds := cs.takeWhile (fun c => c.isDigit)
  !ds.isEmpty && (cs.drop ds.length).head? = some '.'

/-- Try to match `/\[([^\]]+)\]\(([^)]+)\)/` anchored at the head of the
list: `[`, a non-empty label free of `]`, `]`, `(`, a non-empty URL free
of `)`, `)`. Returns the (label, url) capture pair. -/
def linkAt : List Char → Option (String × String)
  | '[' :: rest =>
    let label := rest.takeWhile (fun c => c ≠ ']')
    if label.isEmpty then none
    else
      match rest.drop label.length with
      | ']' :: '(' :: rest2 =>
        let url := rest2.takeWhile (fun c => c ≠ ')')
        if url.isEmpty then none
        else
          match rest2.drop url.length with
          | ')' :: _ => some (String.mk label, String.mk url)
          | _ => none
      | _ => none
  | _ => none

/-- First match of the markdown-link regex in the line: the engine tries
every start position left to right. -/
def findLink : List Char → Option (String × String)
  | [] => none
  | c :: rest =>
    match linkAt (c :: rest) with
    | some r => some r
    | none => findLink rest

/-- The lines of the matched References section that begin with a numeric
list marker (`refLines` in `extractReferences`). -/
def referenceLines (content : String) : List (List Char) :=
  match findRefSection content.data with
  | none => []
  | some suffix => (splitLines suffix).filter numericMarker

/-- `extractReferences` from content-generator.ts: each numeric-marker
line of the References section receives the number `index + 1`, where
`index` is the line's position among the numeric-marker lines
(`refLines.forEach((line, index) => …)`); lines whose first
markdown link cannot be parsed are dropped, but their index still
advances. Total — never throws. -/
def extractReferences (content : String) : List Reference :=
  (referenceLines content).enum.filterMap
    (fun p =>
      match findLink p.2 with
      | some lu => some { number := p.1 + 1, source := lu.1, url := lu.2 }
      | none => none)

/-! ## Pipeline orchestrator (src/agents/content-generator.ts) -/

/-- `Number.prototype.toLocaleString()` as used by `analyzeSERP`: digits
grouped in threes with commas (the en-US default grouping). The reversed
digit list is regrouped right to left. -/
def groupRev : List Char → List Char
  | d1 :: d2 :: d3 :: d4 :: rest => d1 :: d2 :: d3 :: ',' :: groupRev (d4 :: rest)
  | l => l

/-- Comma-grouped rendering of a natural number. -/
def toLocaleString (n : Nat) : String :=
  String.mk (groupRev (toString n).data.reverse).reverse

/-- `formatKeywordSuggestions`: header lines, then (when any suggestions
exist) the suggestions sorted by search volume descending
(`Array.prototype.sort` is stable, hence `mergeSort`), truncated with
`slice(0, 30)` and rendered one per line; joined with newlines. -/
def formatKeywordSuggestions (suggestions : List DataForSEO.KeywordSuggestion) : String :=
  let base := ["### Keyword Suggestions",
               "**Total Keywords Found:** " ++ toString suggestions.length]
  let rows :=
    if suggestions.length > 0 then
      "\n**Top Keywords by Volume:**" ::
        (((suggestions.mergeSort (fun a b => b.search_volume ≤ a.search_volume)).take 30).enum.map
          (fun p =>
            toString (p.1 + 1) ++ ". \"" ++ p.2.keyword ++ "\" - " ++
              toString p.2.search_volume ++ "/month, " ++ p.2.competition_level ++
              " competition, KD: " ++ toString p.2.keyword_difficulty))
    else []
  String.intercalate "\n" (base ++ rows)

/-- The report text `analyzeSERP` builds from a successful snapshot:
header, keyword and total-result lines, then per-item lines (title, URL,
domain, and a truncated description line when the description is
non-empty, i.e. truthy). -/
def formatSERPReport (serpResult : SERPResult) : String :=
  let base := ["### SERP Analysis",
               "**Keyword:** " ++ serpResult.keyword,
               "**Total Results:** " ++ toLocaleString serpResult.totalResults]
  let rows :=
    if serpResult.items.length > 0 then
      "\n**Top 10 Results:**" ::
        serpResult.items.enum.flatMap
          (fun p =>
            [toString (p.1 + 1) ++ ". **" ++ p.2.title ++ "**",
             "   - URL: " ++ p.2.url,
             "   - Domain: " ++ p.2.domain] ++
              (if p.2.description ≠ "" then
                ["   - Description: " ++ String.mk (p.2.description.data.take 150) ++ "..."]
              else []))
    else []
  String.intercalate "\n" (base ++ rows)

/-- Environment of external-call outcomes for one pipeline run. Each field
is the outcome the corresponding network call site observes during the
run; call sites that can throw read an `Except`. The generation calls are
oracles over exactly the data that the call's prompt is assembled from, so
the embedded dataflow matches the source's. -/
structure Env where
  /-- Outcome of `dataForSEO.getSERPResults({ keyword: topic })` up to the
  provider payload: a thrown error, or the `tasks?.[0]?.result?.[0]`
  optional-chain value handed to the response processing. -/
  serpResponse : Except GenError (Option DataForSEO.SERPTaskResult)
  /-- Outcome of `dataForSEO.getKeywordSuggestions({ keyword: topic })`. -/
  suggestionsOutcome : Except GenError (List DataForSEO.KeywordSuggestion)
  /-- Outcome of the keyword-research `aiClient.complete` call, as a
  function of the prompt inputs (topic, SERP report text, keyword data
  text, target audience). -/
  kwComplete : String → String → String → Option String → Except GenError AIResponse
  /-- `JSON.parse` plus cast on the keyword-research JSON span. -/
  kwParse : String → Option KeywordResearchResult
  /-- Outcome of the outline `aiClient.complete` call. -/
  outlineComplete : KeywordResearchResult → Option (List InternalLink) →
    Except GenError AIResponse
  /-- `JSON.parse` plus cast on the outline JSON span. -/
  outlineParse : String → Option OutlineResult
  /-- Outcome of the buffered article `aiClient.complete` call. -/
  articleComplete : OutlineResult → KeywordResearchResult → Except GenError AIResponse
  /-- Outcome of the article `aiClient.stream` call: the fragments
  delivered in order, then `none` for normal exhaustion or `some e` for an
  error thrown mid-stream (after all listed fragments were yielded). -/
  articleStream : OutlineResult → KeywordResearchResult →
    List String × Option GenError
  /-- `new Date().toISOString()` at result-assembly time. -/
  generatedAt : String
  /-- `Date.now() - startTime` at result-assembly time. -/
  processingTime : Nat

/-- `analyzeSERP`: process the provider response into a snapshot and
format it; any thrown error is caught at this call site and replaced by
the placeholder text `'SERP data unavailable.'`. -/
def analyzeSERP (topic : String) (env : Env) : String :=
  match env.serpResponse with
  | Except.ok raw => formatSERPReport (getSERPResults topic raw)
  | Except.error _ => "SERP data unavailable."

/-- `performKeywordResearch`: keyword suggestions are fetched with their
own try/catch (degrading to a placeholder string); the generation call's
response is parsed with `parseKeywordResearchResponse`. A thrown
generation error propagates. -/
def performKeywordResearch (env : Env) (topic : String) (serpData : String)
    (targetAudience : Option String) :
    Except GenError (KeywordResearchResult × Nat) :=
  let keywordData :=
    match env.suggestionsOutcome with
    | Except.ok suggestions => formatKeywordSuggestions suggestions
    | Except.error _ => "Keyword suggestions unavailable."
  match env.kwComplete topic serpData keywordData targetAudience with
  | Except.error e => Except.error e
  | Except.ok resp =>
    Except.ok (parseKeywordResearchResponse env.kwParse resp.content topic, resp.tokensUsed)

/-- Assembles the final envelope shared by `generate` and the streaming
`complete` event. -/
def buildOutput (env : Env) (input : ArticleGenerationInput)
    (outline : OutlineResult) (keywordResearch : KeywordResearchResult)
    (articleContent : String) (tokensUsed : TokensUsed) : ArticleGenerationOutput :=
  let wordCount := countWords articleContent
  { success := true
    data :=
      { article :=
          { title := outline.metadata.h1
            content := articleContent
            wordCount := wordCount
            readingTime := readingTimeOf wordCount }
        seo :=
          { metaTitle := outline.metadata.metaTitle
            metaDescription := outline.metadata.metaDescription
            primaryKeyword := keywordResearch.primaryKeyword.keyword
            secondaryKeywords := keywordResearch.secondaryKeywords.map (fun k => k.keyword) }
        outline := outline
        keywordResearch := keywordResearch
        references := extractReferences articleContent
        internalLinks :=
          (input.internalLinks.getD []).map
            (fun link => { anchorText := link.title, url := link.url, placement := "body" }) }
    metadata :=
      { generatedAt := env.generatedAt
        processingTime := env.processingTime
        tokensUsed := tokensUsed } }

/-- `ContentGeneratorAgent.generate`, buffered mode: the four phases in
sequence; a thrown generation error at any phase propagates
(`Except.error`), research errors degrade inside their phase. -/
def generate (env : Env) (input : ArticleGenerationInput) :
    Except GenError ArticleGenerationOutput :=
  let serpData := analyzeSERP input.topic env
  match performKeywordResearch env input.topic serpData input.targetAudience with
  | Except.error e => Except.error e
  | Except.ok kw =>
    match env.outlineComplete kw.1 input.internalLinks with
    | Except.error e => Except.error e
    | Except.ok outResp =>
      let outline := parseOutlineResponse env.outlineParse outResp.content kw.1
      match env.articleComplete outline kw.1 with
      | Except.error e => Except.error e
      | Except.ok artResp =>
        Except.ok (buildOutput env input outline kw.1 artResp.content
          { keywordResearch := kw.2, outline := outResp.tokensUsed,
            article := artResp.tokensUsed })

/-- `ContentGeneratorAgent.generateStream`: the events the generator
yields, paired with `some e` when the underlying run throws after those
events (the throw propagates out of the generator to its consumer). The
fragment loop appends a `chunk` event per fragment while accumulating the
concatenation; the streaming token count is the `Math.ceil(length / 4)`
estimate. -/
def generateStreamRun (env : Env) (input : ArticleGenerationInput) :
    List StreamEvent × Option GenError :=
  let serpData := analyzeSERP input.topic env
  let evs1 := [StreamEvent.progress "serp_analysis" 5 "Analyzing SERP results...",
               StreamEvent.progress "keyword_research" 20 "Performing keyword research..."]
  match performKeywordResearch env input.topic serpData input.targetAudience with
  | Except.error e => (evs1, some e)
  | Except.ok kw =>
    let evs2 := evs1 ++
      [StreamEvent.progress "keyword_research" 35 "Keyword research complete",
       StreamEvent.progress "outline" 40 "Generating article outline..."]
    match env.outlineComplete kw.1 input.internalLinks with
    | Except.error e => (evs2, some e)
    | Except.ok outResp =>
      let outline := parseOutlineResponse env.outlineParse outResp.content kw.1
      let evs3 := evs2 ++
        [StreamEvent.progress "outline" 55 "Outline complete",
         StreamEvent.progress "article" 60 "Writing article..."]
      let stream := env.articleStream outline kw.1
      let evs4 := evs3 ++ stream.1.map StreamEvent.chunk
      match stream.2 with
      | some e => (evs4, some e)
      | none =>
        let articleContent := String.join stream.1
        (evs4 ++
          [StreamEvent.progress "article" 95 "Finalizing...",
           StreamEvent.complete (buildOutput env input outline kw.1 articleContent
             { keywordResearch := kw.2, outline := outResp.tokensUsed,
               article := (articleContent.length + 3) / 4 })], none)

/-- The event sequence observed by the SSE client: the route handler
(`POST /api/articles/generate/stream`) forwards every yielded event; when
the generator throws after the headers were flushed, it appends a single
`error` event carrying the error message and code `'GENERATION_ERROR'`. -/
def runStream (env : Env) (input : ArticleGenerationInput) : List StreamEvent :=
  match generateStreamRun env input with
  | (evs, none) => evs
  | (evs, some e) => evs ++ [StreamEvent.error e.message "GENERATION_ERROR"]

/-! ## Observation helpers over event sequences -/

/-- The `chunk` payloads of an event sequence, in order. -/
def chunkPayloads (evs : List StreamEvent) : List String :=
  evs.filterMap (fun e =>
    match e with
    | StreamEvent.chunk c => some c
    | _ => none)

/-- In-order concatenation of all `chunk` payloads. -/
def chunkConcat (evs : List StreamEvent) : String :=
  String.join (chunkPayloads evs)

/-- The `progress` percent values of an event sequence, in order. -/
def progressValues (evs : List StreamEvent) : List Nat :=
  evs.filterMap (fun e =>
    match e with
    | StreamEvent.progress _ p _ => some p
    | _ => none)

/-- The payloads of `complete` events in an event sequence. -/
def completeOutputs (evs : List StreamEvent) : List ArticleGenerationOutput :=
  evs.filterMap (fun e =>
    match e with
    | StreamEvent.complete out => some out
    | _ => none)

/-- Terminal events of the streaming protocol: `complete` and `error`. -/
def isTerminal (e : StreamEvent) : Bool :=
  match e with
  | StreamEvent.complete _ => true
  | StreamEvent.error _ _ => true
  | _ => false

/-- Boolean non-decreasing check on a list of naturals. -/
def nondecr : List Nat → Bool
  | [] => true
  | [_] => true
  | a :: b :: t => a ≤ b && nondecr (b :: t)

/-! ## Fixed event prefixes of the streaming run -/

/-- Events emitted before the keyword-research phase call can throw. -/
def progressPrefix2 : List StreamEvent :=
  [StreamEvent.progress "serp_analysis" 5 "Analyzing SERP results...",
   StreamEvent.progress "keyword_research" 20 "Performing keyword research..."]

/-- Events emitted before the outline phase call can throw. -/
def progressPrefix4 : List StreamEvent :=
  progressPrefix2 ++
    [StreamEvent.progress "keyword_research" 35 "Keyword research complete",
     StreamEvent.progress "outline" 40 "Generating article outline..."]

/-- Events emitted before the article streaming starts. -/
def progressPrefix6 : List StreamEvent :=
  progressPrefix4 ++
    [StreamEvent.progress "outline" 55 "Outline complete",
     StreamEvent.progress "article" 60 "Writing article..."]

/-! ## Concrete fixtures used by witnesses and counterexamples -/

/-- The AUTH-classified error the research client throws on missing
credentials. -/
def authError : GenError :=
  { message := "DataForSEO credentials not configured", code := "AUTH_ERROR" }

/-- An environment in which every external call succeeds: the research
provider returns no result object, the structured-generation calls return
prose (so the parsers fall back), and the article call returns
"Hello world", streamed as two fragments. -/
def okEnv : Env :=
  { serpResponse := Except.ok none
    suggestionsOutcome := Except.ok []
    kwComplete := fun _ _ _ _ =>
      Except.ok { content := "model prose without a payload", tokensUsed := 7 }
    kwParse := fun _ => none
    outlineComplete := fun _ _ =>
      Except.ok { content := "model prose without a payload", tokensUsed := 5 }
    outlineParse := fun _ => none
    articleComplete := fun _ _ => Except.ok { content := "Hello world", tokensUsed := 9 }
    articleStream := fun _ _ => (["Hello ", "world"], none)
    generatedAt := "2026-01-01T00:00:00.000Z"
    processingTime := 1234 }

/-- `okEnv` with the SERP fetch throwing the AUTH error. -/
def errEnv : Env := { okEnv with serpResponse := Except.error authError }

/-- A minimal valid request. -/
def sampleInput : ArticleGenerationInput := { topic := "test topic" }

/-- The output of the buffered run under `okEnv` (the run succeeds, so the
match takes the `ok` branch). -/
def sampleOut : ArticleGenerationOutput :=
  match generate okEnv sampleInput with
  | Except.ok o => o
  | Except.error _ =>
    buildOutput okEnv sampleInput (outlineFallback (keywordResearchFallback ""))
      (keywordResearchFallback "") "" { keywordResearch := 0, outline := 0, article := 0 }

/-- Article text whose References section has a numeric line without a
parsable link before a numeric line with one. -/
def gapRefText : String := "## References\n1. no link here\n2. [A](http://a)"

/-- Article text whose References section has a link on every numeric
line. -/
def fullRefText : String :=
  "## References\n1. [Markdown Guide](https://example.com/md)\n2. [HTTP](https://example.com/http)"

/-- Article text where `## References` occurs only in the middle of a
line, never at the start of one. -/
def midlineRefText : String := "See also ## References\n1. [A](http://a)"

/-- Article text with no occurrence of the reference heading at all. -/
def plainText : String := "An article body with no reference heading anywhere."

/-- A generation response containing no JSON object span. -/
def noJsonText : String := "The model replied with prose only."

/-- A provider SERP payload mixing organic and non-organic entries, with
provider rank numbering that does not start at 1. -/
def serpResultFixture : DataForSEO.SERPTaskResult :=
  { keyword := "best crm"
    se_results_count := 1234567
    items := some
      [{ type := "paid", rank_group := 1, rank_absolute := 1, domain := "ads.example",
         title := "Sponsored", url := "https://ads.example/crm", description := some "ad" },
       { type := "organic", rank_group := 1, rank_absolute := 4, domain := "a.example",
         title := "A", url := "https://a.example/crm", description := some "first organic" },
       { type := "featured_snippet", rank_group := 2, rank_absolute := 5, domain := "s.example",
         title := "Snippet", url := "https://s.example/crm", description := none },
       { type := "organic", rank_group := 2, rank_absolute := 9, domain := "b.example",
         title := "B", url := "https://b.example/crm", description := none }] }

/-- The fixture wrapped as the optional-chain value. -/
def serpRespFixture : Option DataForSEO.SERPTaskResult := some serpResultFixture

/-! ## Helper lemmas -/

theorem progressValues_append (a b : List StreamEvent) :
    progressValues (a ++ b) = progressValues a ++ progressValues b :=
  List.filterMap_append a b _

theorem chunkPayloads_append (a b : List StreamEvent) :
    chunkPayloads (a ++ b) = chunkPayloads a ++ chunkPayloads b :=
  List.filterMap_append a b _

theorem completeOutputs_append (a b : List StreamEvent) :
    completeOutputs (a ++ b) = completeOutputs a ++ completeOutputs b :=
  List.filterMap_append a b _

theorem progressValues_chunkList (l : List String) :
    progressValues (l.map StreamEvent.chunk) = [] := by
  induction l with
  | nil => rfl
  | cons x xs ih => simp [progressValues, List.filterMap_cons, ih]

theorem chunkPayloads_chunkList (l : List String) :
    chunkPayloads (l.map StreamEvent.chunk) = l := by
  induction l with
  | nil => rfl
  | cons x xs ih => simpa [chunkPayloads, List.filterMap_cons] using ih

theorem completeOutputs_chunkList (l : List String) :
    completeOutputs (l.map StreamEvent.chunk) = [] := by
  induction l with
  | nil => rfl
  | cons x xs ih => simp [completeOutputs, List.filterMap_cons, ih]

theorem filter_isTerminal_chunkList (l : List String) :
    (l.map StreamEvent.chunk).filter isTerminal = [] := by
  induction l with
  | nil => rfl
  | cons x xs ih => simp [isTerminal, List.filter_cons, ih]

theorem ceil_div_200 (w : Nat) : (w + 199) / 200 = Nat.ceil ((w : ℚ) / 200) := by
  have hd := Nat.div_add_mod (w + 199) 200
  have hm : (w + 199) % 200 < 200 := Nat.mod_lt _ (by norm_num)
  set q := (w + 199) / 200 with hq
  apply le_antisymm
  · rcases Nat.eq_zero_or_pos q with h0 | hpos
    · simp [h0]
    · have hlt : 200 * (q - 1) < w := by omega
      have hcast : ((q - 1 : Nat) : ℚ) < (w : ℚ) / 200 := by
        rw [lt_div_iff₀ (by norm_num : (0 : ℚ) < 200)]
        calc ((q - 1 : Nat) : ℚ) * 200 = ((200 * (q - 1) : Nat) : ℚ) := by push_cast; ring
          _ < (w : ℚ) := by exact_mod_cast hlt
      have := Nat.lt_ceil.mpr hcast
      omega
  · rw [Nat.ceil_le, div_le_iff₀ (by norm_num : (0 : ℚ) < 200)]
    have hle : w ≤ 200 * q := by omega
    calc (w : ℚ) ≤ ((200 * q : Nat) : ℚ) := by exact_mod_cast hle
      _ = (q : ℚ) * 200 := by push_cast; ring

theorem generateStreamRun_shape (env : Env) (input : ArticleGenerationInput) :
    (∃ e, generateStreamRun env input = (progressPrefix2, some e)) ∨
    (∃ e, generateStreamRun env input = (progressPrefix4, some e)) ∨
    (∃ (frags : List String) (e : GenError), generateStreamRun env input =
      (progressPrefix6 ++ frags.map StreamEvent.chunk, some e)) ∨
    (∃ (frags : List String) (outline : OutlineResult) (kw : KeywordResearchResult)
      (tokens : TokensUsed), generateStreamRun env input =
      (progressPrefix6 ++ frags.map StreamEvent.chunk ++
        [StreamEvent.progress "article" 95 "Finalizing...",
         StreamEvent.complete
           (buildOutput env input outline kw (String.join frags) tokens)], none)) := by
  unfold generateStreamRun
  cases hk : performKeywordResearch env input.topic (analyzeSERP input.topic env)
      input.targetAudience with
  | error e =>
    exact Or.inl ⟨e, by simp [hk, progressPrefix2]⟩
  | ok kw =>
    cases ho : env.outlineComplete kw.1 input.internalLinks with
    | error e =>
      exact Or.inr (Or.inl ⟨e, by simp [hk, ho, progressPrefix4, progressPrefix2]⟩)
    | ok outResp =>
      cases hs : (env.articleStream
          (parseOutlineResponse env.outlineParse outResp.content kw.1) kw.1).2 with
      | some e =>
        refine Or.inr (Or.inr (Or.inl
          ⟨(env.articleStream
              (parseOutlineResponse env.outlineParse outResp.content kw.1) kw.1).1, e, ?_⟩))
        simp [hk, ho, hs, progressPrefix6, progressPrefix4, progressPrefix2]
      | none =>
        refine Or.inr (Or.inr (Or.inr
          ⟨(env.articleStream
              (parseOutlineResponse env.outlineParse outResp.content kw.1) kw.1).1,
           parseOutlineResponse env.outlineParse outResp.content kw.1, kw.1,
           { keywordResearch := kw.2, outline := outResp.tokensUsed,
             article := ((String.join (env.articleStream
               (parseOutlineResponse env.outlineParse outResp.content kw.1) kw.1).1).length + 3) / 4 }, ?_⟩))
        simp [hk, ho, hs, progressPrefix6, progressPrefix4, progressPrefix2]

theorem refNumbers_aux (l : List (List Char)) (k : Nat)
    (h : ∀ line ∈ l, findLink line ≠ none) :
    ((l.enumFrom k).filterMap
      (fun p =>
        match findLink p.2 with
        | some lu => some { number := p.1 + 1, source := lu.1, url := lu.2 : Reference }
        | none => none)).map Reference.number = List.range' (k + 1) l.length := by
  induction l generalizing k with
  | nil => simp
  | cons x xs ih =>
    obtain ⟨lu, hlu⟩ := Option.ne_none_iff_exists'.mp (h x (List.mem_cons_self x xs))
    have hrest : ∀ line ∈ xs, findLink line ≠ none := fun line hm => h line (List.mem_cons_of_mem x hm)
    simp only [List.enumFrom_cons, List.filterMap_cons, hlu, List.map_cons, List.length_cons,
      List.range'_succ, ih (k + 1) hrest]

theorem findRefSection_eq_none (cs : List Char)
    (h : ∀ suffix ∈ cs.tails, ¬ refHeadingPat.isPrefixOf (suffix.map Char.toLower) = true) :
    findRefSection cs = none := by
  induction cs with
  | nil => rfl
  | cons c rest ih =>
    have hc := h (c :: rest) (by rw [List.tails_cons]; exact List.mem_cons_self _ _)
    have hrest : ∀ suffix ∈ rest.tails, ¬ refHeadingPat.isPrefixOf (suffix.map Char.toLower) = true := by
      intro suffix hm
      exact h suffix (by rw [List.tails_cons]; exact List.mem_cons_of_mem _ hm)
    simp only [Bool.not_eq_true] at hc
    simp only [findRefSection, hc, Bool.false_eq_true, if_false]
    exact ih hrest

/-! ## Claims -/

/-- C1: for every generation response from which no JSON object can be
extracted and parsed (no brace-delimited span, or the span fails to
parse), `parseKeywordResearchResponse` returns a plan whose
`primaryKeyword.keyword` is the topic, whose collection fields are all
empty, and whose `contentStructure.targetWordCount` is 2500. The function
is total, so it never throws. -/
theorem keywordPlan_fallback (parseJson : String → Option KeywordResearchResult)
    (content topic : String)
    (h : ∀ span, jsonSpan content.data = some span → parseJson (String.mk span) = none) :
    (parseKeywordResearchResponse parseJson content topic).primaryKeyword.keyword = topic ∧
    (parseKeywordResearchResponse parseJson content topic).secondaryKeywords = [] ∧
    (parseKeywordResearchResponse parseJson content topic).longTailClusters = [] ∧
    (parseKeywordResearchResponse parseJson content topic).questions = [] ∧
    (parseKeywordResearchResponse parseJson content topic).contentStructure.sections = [] ∧
    (parseKeywordResearchResponse parseJson content topic).competitiveAnalysis.contentGaps = [] ∧
    (parseKeywordResearchResponse parseJson content topic).contentStructure.targetWordCount = 2500 := by
  unfold parseKeywordResearchResponse
  cases hj : jsonSpan content.data with
  | none => simp [keywordResearchFallback]
  | some span => simp [h span hj, keywordResearchFallback]

/-- C1 witness: a concrete prose-only response with an always-failing
JSON parser. -/
theorem keywordPlan_fallback_witness :
    jsonSpan noJsonText.data = none ∧
    ((parseKeywordResearchResponse (fun _ => none) noJsonText "solar panels").primaryKeyword.keyword = "solar panels" ∧
     (parseKeywordResearchResponse (fun _ => none) noJsonText "solar panels").secondaryKeywords = [] ∧
     (parseKeywordResearchResponse (fun _ => none) noJsonText "solar panels").longTailClusters = [] ∧
     (parseKeywordResearchResponse (fun _ => none) noJsonText "solar panels").questions = [] ∧
     (parseKeywordResearchResponse (fun _ => none) noJsonText "solar panels").contentStructure.sections = [] ∧
     (parseKeywordResearchResponse (fun _ => none) noJsonText "solar panels").competitiveAnalysis.contentGaps = [] ∧
     (parseKeywordResearchResponse (fun _ => none) noJsonText "solar panels").contentStructure.targetWordCount = 2500) :=
  ⟨rfl, keywordPlan_fallback (fun _ => none) noJsonText "solar panels" (fun _ _ => rfl)⟩

/-- C9: constructing either generation-provider client with no API key in
the explicit config (absent or empty, both falsy) and none in the
environment throws at construction time, so no client value on which
`complete` or `stream` could be called ever exists. -/
theorem clients_fail_fast (openaiCfg geminiCfg : Option AIPartialConfig)
    (openaiEnvKey geminiEnvKey : Option String)
    (h1 : openaiCfg.bind (fun c => c.apiKey) = none ∨ openaiCfg.bind (fun c => c.apiKey) = some "")
    (h2 : openaiEnvKey = none ∨ openaiEnvKey = some "")
    (h3 : geminiCfg.bind (fun c => c.apiKey) = none ∨ geminiCfg.bind (fun c => c.apiKey) = some "")
    (h4 : geminiEnvKey = none ∨ geminiEnvKey = some "") :
    OpenAIClient.create openaiCfg openaiEnvKey = Except.error "OpenAI API key not configured" ∧
    GeminiClient.create geminiCfg geminiEnvKey = Except.error "Google AI API key not configured" := by
  constructor
  · unfold OpenAIClient.create
    rcases h1 with h1 | h1 <;> rcases h2 with h2 | h2 <;> simp [h1, h2, jsOrStr]
  · unfold GeminiClient.create
    rcases h3 with h3 | h3 <;> rcases h4 with h4 | h4 <;> simp [h3, h4, jsOrStr]

/-- C9 witness: both constructors with no explicit config and no
environment variable. -/
theorem clients_fail_fast_witness :
    OpenAIClient.create none none = Except.error "OpenAI API key not configured" ∧
    GeminiClient.create none none = Except.error "Google AI API key not configured" :=
  clients_fail_fast none none none none (Or.inl rfl) (Or.inl rfl) (Or.inl rfl) (Or.inl rfl)

/-- C8: when the SERP fetch throws (any error, in particular the AUTH
error), the error is caught at the `analyzeSERP` call site and the text
"SERP data unavailable." takes the place of the snapshot serialization;
provided the generation phases succeed, the buffered run still completes
with an `ok` envelope. -/
theorem serp_failure_degrades (env : Env) (input : ArticleGenerationInput)
    (e : GenError) (kw : KeywordResearchResult × Nat) (outResp artResp : AIResponse)
    (hserp : env.serpResponse = Except.error e)
    (hkw : performKeywordResearch env input.topic "SERP data unavailable."
      input.targetAudience = Except.ok kw)
    (hout : env.outlineComplete kw.1 input.internalLinks = Except.ok outResp)
    (hart : env.articleComplete (parseOutlineResponse env.outlineParse outResp.content kw.1)
      kw.1 = Except.ok artResp) :
    analyzeSERP input.topic env = "SERP data unavailable." ∧
    generate env input = Except.ok
      (buildOutput env input (parseOutlineResponse env.outlineParse outResp.content kw.1)
        kw.1 artResp.content
        { keywordResearch := kw.2, outline := outResp.tokensUsed,
          article := artResp.tokensUsed }) := by
  have hser : analyzeSERP input.topic env = "SERP data unavailable." := by
    unfold analyzeSERP
    rw [hserp]
  refine ⟨hser, ?_⟩
  unfold generate
  rw [hser]
  simp only [hkw, hout, hart]

/-- C8 witness: `errEnv` throws the AUTH error on the SERP fetch and the
run still completes. -/
theorem serp_failure_degrades_witness :
    errEnv.serpResponse = Except.error authError ∧
    performKeywordResearch errEnv sampleInput.topic "SERP data unavailable."
      sampleInput.targetAudience = Except.ok (keywordResearchFallback "test topic", 7) ∧
    (analyzeSERP sampleInput.topic errEnv = "SERP data unavailable." ∧
     generate errEnv sampleInput = Except.ok
      (buildOutput errEnv sampleInput
        (parseOutlineResponse errEnv.outlineParse "model prose without a payload"
          (keywordResearchFallback "test topic"))
        (keywordResearchFallback "test topic") "Hello world"
        { keywordResearch := 7, outline := 5, article := 9 })) :=
  ⟨rfl, rfl,
    serp_failure_degrades errEnv sampleInput authError
      (keywordResearchFallback "test topic", 7)
      { content := "model prose without a payload", tokensUsed := 5 }
      { content := "Hello world", tokensUsed := 9 }
      rfl rfl rfl rfl⟩

/-- C7: the ranked-results fetch keeps only entries of type "organic",
truncates the filtered list to at most 10, assigns each kept entry the
rank equal to its 1-based position in that list (independently of the
provider's `rank_absolute` numbering, which is never read), and returns
an empty snapshot carrying the requested keyword when the provider
response has no result object. -/
theorem serp_fetch_spec (keyword : String) (resp : Option DataForSEO.SERPTaskResult) :
    (resp = none →
      getSERPResults keyword resp = { keyword := keyword, totalResults := 0, items := [] }) ∧
    (∀ result, resp = some result →
      (getSERPResults keyword resp).items.map SERPRankedItem.url =
        (((result.items.getD []).filter (fun it => it.type = "organic")).take 10).map
          DataForSEO.SERPItem.url ∧
      (getSERPResults keyword resp).items.map SERPRankedItem.rank =
        List.range' 1 (getSERPResults keyword resp).items.length ∧
      (getSERPResults keyword resp).items.length ≤ 10) := by
  constructor
  · intro h
    rw [h]
    rfl
  · intro result h
    subst h
    unfold getSERPResults
    set kept := ((result.items.getD []).filter (fun it => it.type = "organic")).take 10 with hkept
    refine ⟨?_, ?_, ?_⟩
    · rw [List.map_map]
      have : (fun p : Nat × DataForSEO.SERPItem => p.2.url) =
          (DataForSEO.SERPItem.url ∘ Prod.snd) := rfl
      calc kept.enum.map (SERPRankedItem.url ∘ fun p =>
              { rank := p.1 + 1, url := p.2.url, title := p.2.title,
                description := p.2.description.getD "", domain := p.2.domain : SERPRankedItem })
          = kept.enum.map (DataForSEO.SERPItem.url ∘ Prod.snd) := rfl
        _ = (kept.enum.map Prod.snd).map DataForSEO.SERPItem.url := by rw [List.map_map]
        _ = kept.map DataForSEO.SERPItem.url := by rw [List.enum_map_snd]
    · rw [List.map_map, List.length_map, List.enum_length]
      calc kept.enum.map (SERPRankedItem.rank ∘ fun p =>
              { rank := p.1 + 1, url := p.2.url, title := p.2.title,
                description := p.2.description.getD "", domain := p.2.domain : SERPRankedItem })
          = kept.enum.map ((fun i => i + 1) ∘ Prod.fst) := rfl
        _ = (kept.enum.map Prod.fst).map (fun i => i + 1) := by rw [List.map_map]
        _ = (List.range kept.length).map (fun i => i + 1) := by rw [List.enum_map_fst]
        _ = List.range' 1 kept.length := by
              rw [List.range'_eq_map_range]
              exact List.map_congr_left (fun i _ => Nat.add_comm i 1)
    · rw [List.length_map, List.enum_length, List.length_take]
      exact min_le_left _ _

/-- C7 witness: the empty-response branch at a concrete keyword, and the
organic-filter branch at a concrete mixed payload whose provider ranks
start at 4. -/
theorem serp_fetch_spec_witness :
    getSERPResults "misc" none = { keyword := "misc", totalResults := 0, items := [] } ∧
    serpRespFixture = some serpResultFixture ∧
    ((getSERPResults "best crm" serpRespFixture).items.map SERPRankedItem.url =
        (((serpResultFixture.items.getD []).filter (fun it => it.type = "organic")).take 10).map
          DataForSEO.SERPItem.url ∧
      (getSERPResults "best crm" serpRespFixture).items.map SERPRankedItem.rank =
        List.range' 1 (getSERPResults "best crm" serpRespFixture).items.length ∧
      (getSERPResults "best crm" serpRespFixture).items.length ≤ 10) :=
  ⟨(serp_fetch_spec "misc" none).1 rfl, rfl,
   (serp_fetch_spec "best crm" serpRespFixture).2 serpResultFixture rfl⟩

/-- C4 counterexample: on an article whose References section contains a
numeric line without a parsable link followed by one with a link, the
extracted references are numbered `[2]`, not the sequential `[1]` the
claim requires (the dropped line's index still advances the numbering). -/
theorem references_numbering_counterexample :
    (extractReferences gapRefText).map Reference.number = [2] ∧
    (extractReferences gapRefText).length = 1 ∧
    decide ((extractReferences gapRefText).map Reference.number =
      List.range' 1 (extractReferences gapRefText).length) = false := by
  refine ⟨by decide, by decide, by decide⟩

/-- C4 (amended): when every numeric-marker line of the References
section contains a parsable markdown link, the extracted references are
numbered sequentially 1, 2, …, n independent of any numbering embedded in
the text; in general each kept reference's number is one plus the index
of its line among the numeric-marker lines. Extraction is a pure function
of the text, so re-running it yields the identical list. -/
theorem references_numbering (content : String)
    (h : ∀ line ∈ referenceLines content, findLink line ≠ none) :
    (extractReferences content).map Reference.number =
      List.range' 1 (extractReferences content).length := by
  unfold extractReferences
  rw [List.enum_eq_enumFrom]
  have haux := refNumbers_aux (referenceLines content) 0 h
  rw [haux]
  have hlen : (List.filterMap
      (fun p : Nat × List Char =>
        match findLink p.2 with
        | some lu => some { number := p.1 + 1, source := lu.1, url := lu.2 : Reference }
        | none => none) ((referenceLines content).enumFrom 0)).length
      = (referenceLines content).length := by
    have := congrArg List.length haux
    rwa [List.length_map, List.length_range'] at this
  rw [hlen]

/-- C4 witness: an article whose References section links on every
numeric line; numbering is 1, 2. -/
theorem references_numbering_witness :
    (extractReferences fullRefText).length = 2 ∧
    (extractReferences fullRefText).map Reference.number =
      List.range' 1 (extractReferences fullRefText).length :=
  ⟨by decide, references_numbering fullRefText (by decide)⟩

/-- C10 counterexample: a text in which no line starts with
"## References" (the heading occurs only mid-line) still yields a
non-empty reference list, because the source matches the heading anywhere
in the text, not at line starts. -/
theorem references_total_counterexample :
    (splitLines midlineRefText.data).all
      (fun line => !(refHeadingPat.isPrefixOf (line.map Char.toLower))) = true ∧
    extractReferences midlineRefText = [{ number := 1, source := "A", url := "http://a" }] ∧
    decide (extractReferences midlineRefText = []) = false := by
  refine ⟨by decide, by decide, by decide⟩

/-- C10 (amended): reference extraction is a total function on strings —
it always returns a list and never throws — and whenever the text
contains no occurrence of "## References" (case-insensitive) anywhere
(at a line start or mid-line), it returns the empty list, so a completed
run always carries a references field. -/
theorem references_total (content : String)
    (h : ∀ suffix ∈ content.data.tails,
      ¬ refHeadingPat.isPrefixOf (suffix.map Char.toLower) = true) :
    extractReferences content = [] := by
  unfold extractReferences referenceLines
  rw [findRefSection_eq_none content.data h]
  rfl

/-- C10 witness: a text with no reference heading at all. -/
theorem references_total_witness :
    plainText.data.tails.all
      (fun suffix => !(refHeadingPat.isPrefixOf (suffix.map Char.toLower))) = true ∧
    extractReferences plainText = [] :=
  ⟨by decide, references_total plainText (by decide)⟩

/-- C5 counterexample: a streaming run in which every phase succeeds
(termination outcome `none`) emits progress percents
5, 20, 35, 40, 55, 60, 95 — there is no 100-percent progress event, so
the claimed checkpoint list 5, 20, 35, 40, 55, 60, 95, 100 is wrong. -/
theorem progress_checkpoints_counterexample :
    (generateStreamRun okEnv sampleInput).2 = none ∧
    progressValues (runStream okEnv sampleInput) = [5, 20, 35, 40, 55, 60, 95] ∧
    decide (progressValues (runStream okEnv sampleInput) =
      [5, 20, 35, 40, 55, 60, 95, 100]) = false := by
  refine ⟨rfl, by decide, by decide⟩

/-- C5 (amended): a streaming run that reaches completion emits, before
the phase transitions, progress events whose percent values are exactly
the fixed checkpoints 5, 20, 35, 40, 55, 60, 95 in that order; completion
itself is signaled by the `complete` event, not by a 100-percent progress
event. -/
theorem progress_checkpoints (env : Env) (input : ArticleGenerationInput)
    (h : (generateStreamRun env input).2 = none) :
    progressValues (runStream env input) = [5, 20, 35, 40, 55, 60, 95] := by
  rcases generateStreamRun_shape env input with ⟨e, hsh⟩ | ⟨e, hsh⟩ | ⟨frags, e, hsh⟩ |
    ⟨frags, outline, kw, tokens, hsh⟩
  · rw [hsh] at h; simp at h
  · rw [hsh] at h; simp at h
  · rw [hsh] at h; simp at h
  · simp only [runStream, hsh]
    rw [progressValues_append, progressValues_append, progressValues_chunkList]
    simp [progressPrefix6, progressPrefix4, progressPrefix2, progressValues]

/-- C5 witness: the checkpoint sequence of the fully successful concrete
run. -/
theorem progress_checkpoints_witness :
    (generateStreamRun okEnv sampleInput).2 = none ∧
    progressValues (runStream okEnv sampleInput) = [5, 20, 35, 40, 55, 60, 95] :=
  ⟨rfl, progress_checkpoints okEnv sampleInput rfl⟩

/-- C6: in every streaming run (any environment, any input), the progress
percents are non-decreasing and bounded by 100, and the event stream ends
with exactly one terminal event (`complete` or `error`) — never both,
never neither. -/
theorem stream_protocol_safety (env : Env) (input : ArticleGenerationInput) :
    nondecr (progressValues (runStream env input)) = true ∧
    (progressValues (runStream env input)).all (fun p => p ≤ 100) = true ∧
    ((runStream env input).filter isTerminal).length = 1 ∧
    ((runStream env input).getLast?).any isTerminal = true := by
  rcases generateStreamRun_shape env input with ⟨e, hsh⟩ | ⟨e, hsh⟩ | ⟨frags, e, hsh⟩ |
    ⟨frags, outline, kw, tokens, hsh⟩ <;>
    simp only [runStream, hsh] <;>
    refine ⟨?_, ?_, ?_, ?_⟩
  · simp [progressValues_append, progressPrefix2, progressValues, nondecr]
  · simp [progressValues_append, progressPrefix2, progressValues]
  · simp [List.filter_append, progressPrefix2, isTerminal]
  · simp [List.getLast?_concat, isTerminal]
  · simp [progressValues_append, progressPrefix4, progressPrefix2, progressValues, nondecr]
  · simp [progressValues_append, progressPrefix4, progressPrefix2, progressValues]
  · simp [List.filter_append, progressPrefix4, progressPrefix2, isTerminal]
  · simp [List.getLast?_concat, isTerminal]
  · rw [progressValues_append, progressValues_append, progressValues_chunkList]
    simp [progressPrefix6, progressPrefix4, progressPrefix2, progressValues, nondecr]
  · rw [progressValues_append, progressValues_append, progressValues_chunkList]
    simp [progressPrefix6, progressPrefix4, progressPrefix2, progressValues]
  · rw [List.filter_append, List.filter_append, filter_isTerminal_chunkList]
    simp [progressPrefix6, progressPrefix4, progressPrefix2, isTerminal]
  · simp [List.getLast?_concat, isTerminal]
  · rw [progressValues_append, progressValues_append, progressValues_chunkList]
    simp [progressPrefix6, progressPrefix4, progressPrefix2, progressValues, nondecr]
  · rw [progressValues_append, progressValues_append, progressValues_chunkList]
    simp [progressPrefix6, progressPrefix4, progressPrefix2, progressValues]
  · rw [List.filter_append, List.filter_append, filter_isTerminal_chunkList]
    simp [progressPrefix6, progressPrefix4, progressPrefix2, isTerminal]
  · simp [List.getLast?_append, List.getLast?_concat, isTerminal]

/-- C3: every completed run — buffered (`generate` returns `ok`) or
streaming (the `complete` event) — carries
`wordCount = countWords content` (the §4.4 stripping rule) and
`readingTime = ceil(wordCount / 200)` rendered as "<n> min". -/
theorem wordCount_readingTime_consistent (env : Env) (input : ArticleGenerationInput) :
    (∀ out, generate env input = Except.ok out →
      out.data.article.wordCount = countWords out.data.article.content ∧
      out.data.article.readingTime =
        toString (Nat.ceil ((countWords out.data.article.content : ℚ) / 200)) ++ " min") ∧
    (∀ out, out ∈ completeOutputs (runStream env input) →
      out.data.article.wordCount = countWords out.data.article.content ∧
      out.data.article.readingTime =
        toString (Nat.ceil ((countWords out.data.article.content : ℚ) / 200)) ++ " min") := by
  have hbuild : ∀ outline kw c tokens,
      (buildOutput env input outline kw c tokens).data.article.wordCount =
        countWords (buildOutput env input outline kw c tokens).data.article.content ∧
      (buildOutput env input outline kw c tokens).data.article.readingTime =
        toString (Nat.ceil
          ((countWords (buildOutput env input outline kw c tokens).data.article.content : ℚ) /
            200)) ++ " min" := by
    intro outline kw c tokens
    refine ⟨rfl, ?_⟩
    show readingTimeOf (countWords c) = _
    rw [readingTimeOf, ceil_div_200]
    rfl
  constructor
  · intro out h
    unfold generate at h
    cases hk : performKeywordResearch env input.topic (analyzeSERP input.topic env)
        input.targetAudience with
    | error e =>
      simp only [hk] at h
      exact Except.noConfusion h
    | ok kw =>
      simp only [hk] at h
      cases ho : env.outlineComplete kw.1 input.internalLinks with
      | error e =>
        simp only [ho] at h
        exact Except.noConfusion h
      | ok outResp =>
        simp only [ho] at h
        cases ha : env.articleComplete
            (parseOutlineResponse env.outlineParse outResp.content kw.1) kw.1 with
        | error e =>
          simp only [ha] at h
          exact Except.noConfusion h
        | ok artResp =>
          simp only [ha, Except.ok.injEq] at h
          rw [← h]
          exact hbuild _ _ _ _
  · intro out h
    rcases generateStreamRun_shape env input with ⟨e, hsh⟩ | ⟨e, hsh⟩ | ⟨frags, e, hsh⟩ |
      ⟨frags, outline, kw, tokens, hsh⟩ <;> simp only [runStream, hsh] at h
    · rw [completeOutputs_append] at h
      simp [completeOutputs, progressPrefix2] at h
    · rw [completeOutputs_append] at h
      simp [completeOutputs, progressPrefix4, progressPrefix2] at h
    · rw [completeOutputs_append, completeOutputs_append, completeOutputs_chunkList] at h
      simp [completeOutputs, progressPrefix6, progressPrefix4, progressPrefix2] at h
    · rw [completeOutputs_append, completeOutputs_append, completeOutputs_chunkList] at h
      simp only [completeOutputs, progressPrefix6, progressPrefix4, progressPrefix2,
        List.filterMap_cons, List.filterMap_nil, List.append_nil, List.nil_append,
        List.append_assoc, List.mem_append, List.mem_singleton, List.not_mem_nil,
        false_or, or_false, List.mem_cons] at h
      rcases h with h | h
      · cases h
      · rw [h]
        exact hbuild _ _ _ _

/-- C3 witness: the concrete successful buffered run. -/
theorem wordCount_readingTime_witness :
    generate okEnv sampleInput = Except.ok sampleOut ∧
    (sampleOut.data.article.wordCount = countWords sampleOut.data.article.content ∧
     sampleOut.data.article.readingTime =
       toString (Nat.ceil ((countWords sampleOut.data.article.content : ℚ) / 200)) ++ " min") :=
  ⟨rfl, (wordCount_readingTime_consistent okEnv sampleInput).1 sampleOut rfl⟩

theorem chunkPayloads_cons_progress (ph : String) (p : Nat) (m : String) (l : List StreamEvent) :
    chunkPayloads (StreamEvent.progress ph p m :: l) = chunkPayloads l := rfl

theorem chunkPayloads_cons_complete (o : ArticleGenerationOutput) (l : List StreamEvent) :
    chunkPayloads (StreamEvent.complete o :: l) = chunkPayloads l := rfl

theorem completeOutputs_cons_progress (ph : String) (p : Nat) (m : String)
    (l : List StreamEvent) :
    completeOutputs (StreamEvent.progress ph p m :: l) = completeOutputs l := rfl

theorem completeOutputs_cons_complete (o : ArticleGenerationOutput) (l : List StreamEvent) :
    completeOutputs (StreamEvent.complete o :: l) = o :: completeOutputs l := rfl

/-- C2: when the fragment sequence of the streaming article call
concatenates to the same text the buffered article call returns (and the
stream terminates normally), the in-order concatenation of all `chunk`
payloads equals the buffered run's `article.content`, and the streaming
run carries exactly one `complete` event whose `article.content` equals
that same concatenation. -/
theorem stream_buffered_consistency (env : Env) (input : ArticleGenerationInput)
    (out : ArticleGenerationOutput)
    (hgen : generate env input = Except.ok out)
    (hnoerr : ∀ o k, (env.articleStream o k).2 = none)
    (hjoin : ∀ o k r, env.articleComplete o k = Except.ok r →
      String.join (env.articleStream o k).1 = r.content) :
    chunkConcat (runStream env input) = out.data.article.content ∧
    (completeOutputs (runStream env input)).map (fun o => o.data.article.content) =
      [chunkConcat (runStream env input)] := by
  unfold generate at hgen
  cases hk : performKeywordResearch env input.topic (analyzeSERP input.topic env)
      input.targetAudience with
  | error e =>
    simp only [hk] at hgen
    exact Except.noConfusion hgen
  | ok kw =>
    simp only [hk] at hgen
    cases ho : env.outlineComplete kw.1 input.internalLinks with
    | error e =>
      simp only [ho] at hgen
      exact Except.noConfusion hgen
    | ok outResp =>
      simp only [ho] at hgen
      cases ha : env.articleComplete
          (parseOutlineResponse env.outlineParse outResp.content kw.1) kw.1 with
      | error e =>
        simp only [ha] at hgen
        exact Except.noConfusion hgen
      | ok artResp =>
        simp only [ha, Except.ok.injEq] at hgen
        have hcc : chunkConcat (runStream env input) = out.data.article.content := by
          simp only [runStream, generateStreamRun, hk, ho, hnoerr]
          rw [chunkConcat, chunkPayloads_append, chunkPayloads_append, chunkPayloads_append,
            chunkPayloads_append, chunkPayloads_chunkList]
          simp only [chunkPayloads_cons_progress, chunkPayloads_cons_complete]
          rw [show chunkPayloads ([] : List StreamEvent) = [] from rfl]
          simp only [List.nil_append, List.append_nil]
          rw [hjoin _ _ _ ha, ← hgen]
          rfl
        refine ⟨hcc, ?_⟩
        rw [hcc]
        simp only [runStream, generateStreamRun, hk, ho, hnoerr]
        rw [completeOutputs_append, completeOutputs_append, completeOutputs_append,
          completeOutputs_append, completeOutputs_chunkList]
        simp only [completeOutputs_cons_progress, completeOutputs_cons_complete]
        rw [show completeOutputs ([] : List StreamEvent) = [] from rfl]
        simp only [List.nil_append, List.append_nil, List.map_cons, List.map_nil]
        rw [hjoin _ _ _ ha, ← hgen]
        rfl

/-- C2 witness: the concrete environment streams "Hello " and "world",
whose concatenation is the buffered completion "Hello world". -/
theorem stream_buffered_consistency_witness :
    generate okEnv sampleInput = Except.ok sampleOut ∧
    (chunkConcat (runStream okEnv sampleInput) = sampleOut.data.article.content ∧
     (completeOutputs (runStream okEnv sampleInput)).map (fun o => o.data.article.content) =
       [chunkConcat (runStream okEnv sampleInput)]) :=
  ⟨rfl,
    stream_buffered_consistency okEnv sampleInput sampleOut rfl (fun _ _ => rfl)
      (fun o k r h => by
        rw [show okEnv.articleComplete o k =
          Except.ok { content := "Hello world", tokensUsed := 9 } from rfl] at h
        injection h with h2
        rw [← h2]
        rfl)⟩
